import Mathlib

/-!
Shallow embedding of the notebook
"LLM 04 - Fine-tuning and Evaluating LLMs/LLM 04a - Fine-tuning LLMs.ipynb".

The notebook is a linear script that configures and sequences calls into
external ML libraries.  We embed the authored glue code: the label-lookup
dictionary and the `to_tokens` closure, the GPU-runtime assertion, the
environment-variable assignments, the DeepSpeed `zero_config` dictionary,
the checkpoint/final-model path construction and the file operations they
drive, the column-removal effect of the dataset `map` calls, and the order
of the statements of the notebook.  External library calls (tokenizer, model,
trainer) are abstracted as parameters of the embedded functions, so the
theorems quantify over their behaviour.
-/

namespace LLM04

/-! ## The `to_tokens` closure and the label lookup table -/

/-- A batch `x` handed to the tokenization closure by `Dataset.map(...,
batched=True)`: the raw IMDB columns, a list of review texts (`x["text"]`)
and a parallel list of integer labels (`x["label"]`). -/
structure Batch where
  text : List String
  label : List Int
  deriving Repr, DecidableEq

/-- The dict `imdb_label_lookup = {0: "negative", 1: "positive", -1: "unknown"}`,
a Python dict embedded as an association list. -/
def imdb_label_lookup : List (Int × String) :=
  [(0, "negative"), (1, "positive"), (-1, "unknown")]

/-- Left-to-right effectful map over a list, failing on the first element
where `f` fails.  Models the Python list comprehension
`[label_map[y] for y in x["label"]]`, where a missing key raises `KeyError`
at the first offending element (`none` here). -/
def mapOpt {α β : Type} (f : α → Option β) : List α → Option (List β)
  | [] => some []
  | a :: t =>
    match f a with
    | none => none
    | some b =>
      match mapOpt f t with
      | none => none
      | some bs => some (b :: bs)

/-- The inner `apply(x)` of `to_tokens(tokenizer, label_map)`.  The external
tokenizer is abstracted as a function `tokenizer` from the positional texts
and the `text_target` strings to a batch encoding of arbitrary type `E`.
The comprehension `[label_map[y] for y in x["label"]]` is evaluated first;
if any label is missing from the dict the call fails (`none`) and the
tokenizer is never applied.  Otherwise `tokenizer(x["text"],
text_target=target_labels, ...)` is returned. -/
def to_tokens_apply {E : Type} (tokenizer : List String → List String → E)
    (label_map : List (Int × String)) (x : Batch) : Option E :=
  match mapOpt (fun y => label_map.lookup y) x.label with
  | none => none
  | some target_labels => some (tokenizer x.text target_labels)

/-- The translation the spec claims for label ids: `0 ↦ "negative"`,
`1 ↦ "positive"`, `-1 ↦ "unknown"`.  Written from the words of the claim, to be
compared with the lookup performed by `to_tokens_apply`. -/
def specLabelString (y : Int) : String :=
  if y = 0 then "negative" else if y = 1 then "positive" else "unknown"

/-! ## The GPU-runtime assertion -/

/-- The test `pat.isPrefixOf s` lifted to a scan over all suffixes: Boolean substring
containment on character lists. -/
def charsContain (pat : List Char) : List Char → Bool
  | [] => pat.isEmpty
  | c :: t => pat.isPrefixOf (c :: t) || charsContain pat t

/-- The Python membership test `"gpu" in version_string`, as Boolean substring
containment. -/
def containsSub (pat s : String) : Bool :=
  charsContain pat.data s.data

/-- The message of the single assertion of the notebook. -/
def gpuAssertMessage : String :=
  "THIS LAB REQUIRES THAT A GPU MACHINE AND RUNTIME IS UTILIZED."

/-- The assertion `assert "gpu" in spark.conf.get("spark.databricks.clusterUsageTags.sparkVersion"), "THIS LAB REQUIRES ..."`:
given the Spark runtime version string, either proceed (`Except.ok`) or halt
with the assertion message (`Except.error`). -/
def sparkGpuAssert (runtimeVersion : String) : Except String Unit :=
  if containsSub "gpu" runtimeVersion then Except.ok ()
  else Except.error gpuAssertMessage

/-! ## The notebook as a sequence of statements -/

/-- The kinds of top-level statements authored in the code cells of the notebook,
in the vocabulary needed by the claims.  `tryExceptStmt` and `retryStmt`
stand for exception-handling / retry constructs (Python `try`/`except` or a
retry loop): the notebook authors none, so these constructors never occur in
`notebook` below.  `envAssign k v note` is `os.environ[k] = v` with an
optional trailing source comment. -/
inductive Stmt where
  | assertStmt (message : String)
  | shellStmt
  | pipInstallStmt
  | runSetupStmt
  | printStmt
  | loadExtStmt
  | mkTempDirStmt
  | importsStmt
  | loadDatasetStmt
  | assignStr (name value : String)
  | loadTokenizerStmt (checkpoint : String)
  | defToTokensStmt
  | defLabelLookupStmt
  | mapDatasetStmt (removeColumns : List String)
  | buildTrainingArgsStmt
  | loadModelStmt (checkpoint : String)
  | buildTrainerStmt
  | tensorboardStmt
  | trainStmt
  | saveLocalStmt
  | saveFinalStmt (checkpointName : String)
  | reloadModelStmt (checkpointName : String)
  | assignReviewsStmt
  | encodeReviewsStmt
  | generateStmt
  | displayStmt
  | envAssign (key value : String) (note : Option String)
  | defZeroConfigStmt
  | tryExceptStmt
  | retryStmt
  | cleanupStmt
  deriving Repr, DecidableEq

open Stmt in
/-- The statements of the preamble of the notebook: the GPU assertion, the CUDA
library shell cell, the pip install, the classroom setup, the username /
working-directory print, autoreload, and the temporary-directory creation. -/
def preamble : List Stmt :=
  [ assertStmt gpuAssertMessage,
    shellStmt,
    pipInstallStmt,
    runSetupStmt,
    printStmt,
    loadExtStmt,
    mkTempDirStmt,
    importsStmt ]

open Stmt in
/-- The statements of the first fine-tuning pipeline (`t5-small`, Steps 1-5
of the notebook), in source order. -/
def firstPipeline : List Stmt :=
  [ loadDatasetStmt,
    assignStr "model_checkpoint" "t5-small",
    loadTokenizerStmt "t5-small",
    defToTokensStmt,
    defLabelLookupStmt,
    mapDatasetStmt ["text", "label"],
    assignStr "checkpoint_name" "test-trainer",
    buildTrainingArgsStmt,
    loadModelStmt "t5-small",
    buildTrainerStmt,
    tensorboardStmt,
    trainStmt,
    saveLocalStmt,
    saveFinalStmt "test-trainer",
    reloadModelStmt "test-trainer",
    assignReviewsStmt,
    encodeReviewsStmt,
    generateStmt,
    displayStmt ]

open Stmt in
/-- The statements of the DeepSpeed section (environment setup,
`zero_config`, the `t5-base` run and its prediction), in source order. -/
def deepspeedSection : List Stmt :=
  [ envAssign "MASTER_ADDR" "localhost" none,
    envAssign "MASTER_PORT" "9994" (some "modify if RuntimeError: Address already in use"),
    envAssign "RANK" "0" none,
    envAssign "LOCAL_RANK" "0" none,
    envAssign "WORLD_SIZE" "1" none,
    defZeroConfigStmt,
    assignStr "model_checkpoint" "t5-base",
    loadTokenizerStmt "t5-base",
    mapDatasetStmt ["text", "label"],
    loadModelStmt "t5-base",
    assignStr "checkpoint_name" "test-trainer-deepspeed",
    buildTrainingArgsStmt,
    buildTrainerStmt,
    tensorboardStmt,
    trainStmt,
    saveLocalStmt,
    saveFinalStmt "test-trainer-deepspeed",
    reloadModelStmt "test-trainer-deepspeed",
    assignReviewsStmt,
    encodeReviewsStmt,
    generateStmt,
    displayStmt ]

/-- The whole notebook, in source order, ending with `tmpdir.cleanup()`. -/
def notebook : List Stmt :=
  preamble ++ firstPipeline ++ deepspeedSection ++ [Stmt.cleanupStmt]

/-- Is a statement the explicit `assert` failure check? -/
def isAssertStmt : Stmt → Bool
  | .assertStmt _ => true
  | _ => false

/-- Is a statement an exception-handling or retry construct? -/
def isHandlerStmt : Stmt → Bool
  | .tryExceptStmt => true
  | .retryStmt => true
  | _ => false

/-- Is a statement part of the fine-tuning work (anything from the training
pipelines: dataset, tokenizer, model, trainer, training, saving)? -/
def isFineTuningStmt : Stmt → Bool
  | .loadDatasetStmt => true
  | .loadTokenizerStmt _ => true
  | .mapDatasetStmt _ => true
  | .buildTrainingArgsStmt => true
  | .loadModelStmt _ => true
  | .buildTrainerStmt => true
  | .trainStmt => true
  | .saveLocalStmt => true
  | .saveFinalStmt _ => true
  | _ => false

/-- The environment-variable assignment performed by a statement, if any. -/
def envOf : Stmt → Option (String × String)
  | .envAssign k v _ => some (k, v)
  | _ => none

/-! ## The pipeline phases of the first run -/

/-- The phases named by the linear order given in the spec. -/
inductive Step where
  | loadDataset
  | loadTokenizer
  | mapTokenize
  | buildConfig
  | buildModel
  | buildTrainer
  | train
  | save
  | reload
  | predict
  | displayStep
  deriving Repr, DecidableEq

/-- The phase a statement belongs to, if it is one of the substantive
pipeline steps (assignments, tensorboard and the like carry no phase). -/
def stepOf : Stmt → Option Step
  | .loadDatasetStmt => some .loadDataset
  | .loadTokenizerStmt _ => some .loadTokenizer
  | .mapDatasetStmt _ => some .mapTokenize
  | .buildTrainingArgsStmt => some .buildConfig
  | .loadModelStmt _ => some .buildModel
  | .buildTrainerStmt => some .buildTrainer
  | .trainStmt => some .train
  | .saveLocalStmt => some .save
  | .saveFinalStmt _ => some .save
  | .reloadModelStmt _ => some .reload
  | .generateStmt => some .predict
  | .displayStmt => some .displayStep
  | _ => none

/-- Collapse adjacent duplicates (the two consecutive save statements —
`trainer.save_model()` to the local checkpoint and
`trainer.save_model(output_dir=final_model_path)` — form one save phase). -/
def collapseAdj : List Step → List Step
  | [] => []
  | [a] => [a]
  | a :: b :: t => if a = b then collapseAdj (b :: t) else a :: collapseAdj (b :: t)

/-- The phase sequence of the first pipeline. -/
def firstPipelinePhases : List Step :=
  collapseAdj (firstPipeline.filterMap stepOf)

/-! ## The DeepSpeed `zero_config` dictionary -/

/-- Python values occurring in the `zero_config` dictionary: strings,
numbers, Booleans and nested dicts (as association lists).  The literal
`5e8` in the source is an integral float; it is embedded as the number `500000000`. -/
inductive PyVal where
  | s (v : String)
  | n (v : Nat)
  | b (v : Bool)
  | d (entries : List (String × PyVal))

/-- Dict key access `v[k]`, `none` on a non-dict or missing key. -/
def PyVal.get : PyVal → String → Option PyVal
  | .d entries, k => entries.lookup k
  | _, _ => none

/-- Nested dict access along a key path, `v[k1][k2]...[kn]`. -/
def getPath (v : PyVal) : List String → Option PyVal
  | [] => some v
  | k :: ks =>
    match v.get k with
    | none => none
    | some v2 => getPath v2 ks

/-- The `zero_config` dictionary handed to `TrainingArguments` via the
`deepspeed=` keyword, transcribed from the source. -/
def zero_config : PyVal :=
  .d [ ("zero_optimization", .d
         [ ("stage", .n 2),
           ("offload_optimizer", .d [("device", .s "cpu"), ("pin_memory", .b true)]),
           ("allgather_partitions", .b true),
           ("allgather_bucket_size", .n 500000000),
           ("overlap_comm", .b true),
           ("reduce_scatter", .b true),
           ("reduce_bucket_size", .n 500000000),
           ("contiguous_gradients", .b true) ]),
       ("optimizer", .d
         [ ("type", .s "AdamW"),
           ("params", .d
             [ ("lr", .s "auto"),
               ("betas", .s "auto"),
               ("eps", .s "auto"),
               ("weight_decay", .s "auto"),
               ("torch_adam", .b true) ]) ]),
       ("train_batch_size", .s "auto") ]

/-! ## Checkpoint paths and file operations -/

/-- Path joining `os.path.join(a, b)` for a relative second component and a first
component without a trailing slash, as in the uses made by the notebook. -/
def pathJoin (a b : String) : String := a ++ "/" ++ b

/-- Boolean string-prefix test via the underlying character lists. -/
def strHasPre (p s : String) : Bool := p.data.isPrefixOf s.data

/-- The path `local_checkpoint_path = os.path.join(local_training_root, "test-trainer")`,
with `local_training_root = tmpdir.name` abstracted as `root`. -/
def local_checkpoint_path (root : String) : String := pathJoin root "test-trainer"

/-- The path `checkpoint_location = os.path.join(local_training_root, "test-trainer-deepspeed")`. -/
def checkpoint_location (root : String) : String := pathJoin root "test-trainer-deepspeed"

/-- The path `final_model_path = f"{DA.paths.working_dir}/llm04_fine_tuning/{checkpoint_name}"`,
with the working directory abstracted as `workingDir`. -/
def final_model_path (workingDir checkpointName : String) : String :=
  workingDir ++ "/llm04_fine_tuning/" ++ checkpointName

/-- The filesystem effects driven by the statements of the notebook: writing
intermediate checkpoints under a training-output path, copying the final
model artifacts to a path, and recursively removing a directory tree. -/
inductive FileOp where
  | writeCkpt (path : String)
  | copyFinal (path : String)
  | removeTree (path : String)
  deriving Repr, DecidableEq

/-- The filesystem effect trace of the notebook, in source order: the first run
trains into `local_checkpoint_path` and persists to the final path for
`"test-trainer"`; the DeepSpeed run trains into `checkpoint_location` and
persists to the final path for `"test-trainer-deepspeed"`; the terminal
`tmpdir.cleanup()` removes the temporary root. -/
def fileOps (root workingDir : String) : List FileOp :=
  [ .writeCkpt (local_checkpoint_path root),
    .copyFinal (final_model_path workingDir "test-trainer"),
    .writeCkpt (checkpoint_location root),
    .copyFinal (final_model_path workingDir "test-trainer-deepspeed"),
    .removeTree root ]

/-- The path written by an intermediate-checkpoint operation, if any. -/
def ckptTarget : FileOp → Option String
  | .writeCkpt p => some p
  | _ => none

/-- The path a final-artifact copy targets, if any. -/
def copyTarget : FileOp → Option String
  | .copyFinal p => some p
  | _ => none

/-- The path a removal targets, if any. -/
def removeTarget : FileOp → Option String
  | .removeTree p => some p
  | _ => none

/-- Does the trace remove the tree containing path `p` (some removal target
is a prefix of `p`)? -/
def removedUnder (ops : List FileOp) (p : String) : Bool :=
  ops.any (fun op =>
    match op with
    | .removeTree r => strHasPre r p
    | _ => false)

/-! ## The prediction section -/

/-- The two-column table handed to `display(pdf)`: the column names of the DataFrame and its rows (pairs produced by `zip`). -/
structure DisplayTable where
  columns : List String
  rows : List (String × String)
  deriving Repr, DecidableEq

/-- The prediction section of the first run (Step 5), with the external
library abstracted: `loadModel` is `AutoModelForSeq2SeqLM.from_pretrained`,
`encode` is the tokenizer call on the review texts, `generate` runs
`model.generate` on the encoded inputs, and `decode skipSpecial` is
`tokenizer.batch_decode(pred, skip_special_tokens=skipSpecial)`.  The model
is reloaded from `finalPath`, the reviews are tokenized, generation runs on
the tokenized reviews, the generated ids are decoded with special tokens
skipped, and each review is paired with its decoded string in a DataFrame
with columns `["review", "classification"]`. -/
def predictSection {M E P : Type} (loadModel : String → M) (encode : List String → E)
    (generate : M → E → P) (decode : P → Bool → List String)
    (finalPath : String) (reviews : List String) : DisplayTable :=
  let fine_tuned_model := loadModel finalPath
  let inputs := encode reviews
  let pred := generate fine_tuned_model inputs
  { columns := ["review", "classification"],
    rows := reviews.zip (decode pred true) }

/-! ## Column removal by `Dataset.map` -/

/-- The column set of a split after `map(fn, batched=True,
remove_columns=removed)`: the original columns minus the removed ones, plus
the columns introduced by the batch encoding of the mapped function. -/
def mapWithRemove (origCols newCols removed : List String) : List String :=
  origCols.filter (fun c => !(removed.contains c)) ++ newCols

/-- The splits of the IMDB dataset. -/
def imdbSplits : List String := ["train", "test", "unsupervised"]

/-- The raw columns of every IMDB split. -/
def rawColumns : List String := ["text", "label"]

/-- Columns of each split of `tokenized_dataset = imdb_ds.map(imdb_to_tokens,
batched=True, remove_columns=["text", "label"])`, parameterized by the
fields `newCols` of the batch encoding of the tokenizer.  Both training runs
issue this same call. -/
def tokenizedDatasetColumns (newCols : List String) : List (String × List String) :=
  imdbSplits.map (fun split => (split, mapWithRemove rawColumns newCols ["text", "label"]))

/-! ## Helper lemmas -/

theorem mapOpt_eq_map {α β : Type} (f : α → Option β) (g : α → β) :
    ∀ l : List α, (∀ a ∈ l, f a = some (g a)) → mapOpt f l = some (l.map g) := by
  intro l
  induction l with
  | nil => intro _; rfl
  | cons a t ih =>
    intro h
    have ha : f a = some (g a) := h a (List.mem_cons_self a t)
    have ht : mapOpt f t = some (t.map g) := ih (fun b hb => h b (List.mem_cons_of_mem a hb))
    simp [mapOpt, ha, ht]

theorem mapOpt_eq_none {α β : Type} (f : α → Option β) :
    ∀ l : List α, (∃ a ∈ l, f a = none) → mapOpt f l = none := by
  intro l
  induction l with
  | nil => rintro ⟨a, ha, _⟩; exact absurd ha (List.not_mem_nil a)
  | cons a t ih =>
    rintro ⟨b, hb, hfb⟩
    rcases List.mem_cons.mp hb with hba | hbt
    · subst hba
      simp [mapOpt, hfb]
    · cases hfa : f a with
      | none => simp [mapOpt, hfa]
      | some v => simp [mapOpt, hfa, ih ⟨b, hbt, hfb⟩]

theorem lookup_of_valid (y : Int) (h : y = 0 ∨ y = 1 ∨ y = -1) :
    imdb_label_lookup.lookup y = some (specLabelString y) := by
  rcases h with h | h | h <;> subst h <;> rfl

theorem lookup_of_invalid (y : Int) (h0 : y ≠ 0) (h1 : y ≠ 1) (hm : y ≠ -1) :
    imdb_label_lookup.lookup y = none := by
  have b0 : (y == 0) = false := beq_eq_false_iff_ne.mpr h0
  have b1 : (y == 1) = false := beq_eq_false_iff_ne.mpr h1
  have bm : (y == -1) = false := beq_eq_false_iff_ne.mpr hm
  simp [imdb_label_lookup, List.lookup, b0, b1, bm]

/-! ## Claim theorems -/

/-- C1: for every batch `x` handed to the tokenization closure produced by
`to_tokens(tokenizer, imdb_label_lookup)`, each integer label id in
`x["label"]` is translated to its corresponding string — `0` to
`"negative"`, `1` to `"positive"`, `-1` to `"unknown"` — and exactly these
strings (in order) are passed to the abstracted tokenizer as the text
targets of the batch encoding the closure returns. -/
theorem to_tokens_translates_labels {E : Type}
    (tokenizer : List String → List String → E) (x : Batch)
    (h : ∀ y ∈ x.label, y = 0 ∨ y = 1 ∨ y = -1) :
    to_tokens_apply tokenizer imdb_label_lookup x =
      some (tokenizer x.text (x.label.map specLabelString)) := by
  have hmap : mapOpt (fun y => imdb_label_lookup.lookup y) x.label =
      some (x.label.map specLabelString) :=
    mapOpt_eq_map _ _ x.label (fun y hy => lookup_of_valid y (h y hy))
  simp [to_tokens_apply, hmap]

/-- Witness for C1: a concrete two-review batch with labels `[1, 0]` is
tokenized with text targets `["positive", "negative"]`. -/
theorem to_tokens_translates_labels_witness :
    to_tokens_apply (fun texts targets => (texts, targets)) imdb_label_lookup
      ⟨["a fine film", "a dull film"], [1, 0]⟩ =
      some (["a fine film", "a dull film"], ["positive", "negative"]) := by
  have h := to_tokens_translates_labels (fun texts targets => (texts, targets))
    ⟨["a fine film", "a dull film"], [1, 0]⟩ (by decide)
  simpa using h

/-- C9: the label lookup table is defined on exactly the three keys `-1`,
`0` and `1`, and for every batch whose label column contains a value outside
`{-1, 0, 1}` the closure fails with a key-lookup error before calling the
tokenizer — the result is `none` for every possible tokenizer, so no batch
encoding is produced. -/
theorem to_tokens_fails_outside_domain {E : Type}
    (tokenizer : List String → List String → E) (x : Batch)
    (h : ∃ y ∈ x.label, y ≠ 0 ∧ y ≠ 1 ∧ y ≠ -1) :
    imdb_label_lookup.map Prod.fst = [0, 1, -1] ∧
      to_tokens_apply tokenizer imdb_label_lookup x = none := by
  refine ⟨rfl, ?_⟩
  obtain ⟨y, hy, h0, h1, hm⟩ := h
  have hmap : mapOpt (fun y => imdb_label_lookup.lookup y) x.label = none :=
    mapOpt_eq_none _ x.label ⟨y, hy, lookup_of_invalid y h0 h1 hm⟩
  simp [to_tokens_apply, hmap]

/-- Witness for C9: a batch carrying the out-of-domain label `2` produces no
batch encoding. -/
theorem to_tokens_fails_outside_domain_witness :
    to_tokens_apply (fun texts targets => (texts, targets)) imdb_label_lookup
      ⟨["a fine film"], [2]⟩ = none :=
  (to_tokens_fails_outside_domain (fun texts targets => (texts, targets))
    ⟨["a fine film"], [2]⟩ ⟨2, by decide, by decide, by decide, by decide⟩).2

/-- C2: the notebook performs exactly one explicit failure check — the GPU
assertion — and it is the very first statement, before any fine-tuning work;
for every runtime string not containing `"gpu"` the assertion halts with the
message `"THIS LAB REQUIRES THAT A GPU MACHINE AND RUNTIME IS UTILIZED."`,
and for every runtime string containing `"gpu"` execution proceeds. -/
theorem gpu_assert_spec :
    (∀ s, containsSub "gpu" s = false →
      sparkGpuAssert s = Except.error gpuAssertMessage) ∧
    (∀ s, containsSub "gpu" s = true → sparkGpuAssert s = Except.ok ()) ∧
    notebook.filter isAssertStmt = [Stmt.assertStmt gpuAssertMessage] ∧
    notebook.findIdx isAssertStmt = 0 ∧
    (∀ i, (notebook.findIdx isFineTuningStmt < i ∨ i = notebook.findIdx isFineTuningStmt) →
      notebook.findIdx isAssertStmt < i) := by
  refine ⟨?_, ?_, by decide, by decide, ?_⟩
  · intro s hs
    simp [sparkGpuAssert, hs]
  · intro s hs
    simp [sparkGpuAssert, hs]
  · intro i hi
    have h0 : notebook.findIdx isAssertStmt = 0 := by decide
    have hft : notebook.findIdx isFineTuningStmt = 8 := by decide
    rw [h0]
    rcases hi with hi | hi <;> omega

/-- Witness for C2: a CPU runtime string halts with the message and a GPU
runtime string proceeds. -/
theorem gpu_assert_spec_witness :
    sparkGpuAssert "13.3.x-cpu-ml" = Except.error gpuAssertMessage ∧
      sparkGpuAssert "13.3.x-gpu-ml" = Except.ok () :=
  ⟨gpu_assert_spec.1 "13.3.x-cpu-ml" (by decide),
   gpu_assert_spec.2.1 "13.3.x-gpu-ml" (by decide)⟩

/-- C3: the only environment variables the notebook sets are the five
distributed-topology variables, with `MASTER_ADDR = "localhost"`,
`MASTER_PORT = "9994"`, `RANK = "0"`, `LOCAL_RANK = "0"` and
`WORLD_SIZE = "1"` — a degenerate single-node topology with world size 1
and both ranks 0. -/
theorem env_topology_spec :
    notebook.filterMap envOf =
      [("MASTER_ADDR", "localhost"), ("MASTER_PORT", "9994"),
       ("RANK", "0"), ("LOCAL_RANK", "0"), ("WORLD_SIZE", "1")] ∧
    (notebook.filterMap envOf).lookup "WORLD_SIZE" = some "1" ∧
    (notebook.filterMap envOf).lookup "RANK" = some "0" ∧
    (notebook.filterMap envOf).lookup "LOCAL_RANK" = some "0" := by
  refine ⟨by decide, by decide, by decide, by decide⟩

/-- C4: the `zero_config` dictionary selects ZeRO stage 2, optimizer offload
to device `"cpu"` with pinned memory, allgather and reduce bucket sizes both
`5e8` (= 500000000), an AdamW optimizer whose `lr`, `betas`, `eps` and
`weight_decay` are the string `"auto"`, and a top-level `train_batch_size`
of `"auto"`. -/
theorem zero_config_spec :
    getPath zero_config ["zero_optimization", "stage"] = some (.n 2) ∧
    getPath zero_config ["zero_optimization", "offload_optimizer", "device"] = some (.s "cpu") ∧
    getPath zero_config ["zero_optimization", "offload_optimizer", "pin_memory"] = some (.b true) ∧
    getPath zero_config ["zero_optimization", "allgather_bucket_size"] = some (.n 500000000) ∧
    getPath zero_config ["zero_optimization", "reduce_bucket_size"] = some (.n 500000000) ∧
    getPath zero_config ["optimizer", "type"] = some (.s "AdamW") ∧
    getPath zero_config ["optimizer", "params", "lr"] = some (.s "auto") ∧
    getPath zero_config ["optimizer", "params", "betas"] = some (.s "auto") ∧
    getPath zero_config ["optimizer", "params", "eps"] = some (.s "auto") ∧
    getPath zero_config ["optimizer", "params", "weight_decay"] = some (.s "auto") ∧
    getPath zero_config ["train_batch_size"] = some (.s "auto") :=
  ⟨rfl, rfl, rfl, rfl, rfl, rfl, rfl, rfl, rfl, rfl, rfl⟩

/-- C6: the phases of the first pipeline occur in exactly the fixed linear
order load dataset, load tokenizer, map/tokenize, construct training
configuration, construct model, construct trainer, train, save, reload,
predict, display; in particular prediction happens strictly after the save
and the reload of the trained model. -/
theorem pipeline_order_spec :
    firstPipelinePhases =
      [.loadDataset, .loadTokenizer, .mapTokenize, .buildConfig, .buildModel,
       .buildTrainer, .train, .save, .reload, .predict, .displayStep] ∧
    firstPipelinePhases.indexOf .predict > firstPipelinePhases.indexOf .reload ∧
    firstPipelinePhases.indexOf .reload > firstPipelinePhases.indexOf .save ∧
    firstPipelinePhases.count Step.predict = 1 := by
  refine ⟨by decide, by decide, by decide, by decide⟩

/-- C8: apart from the single assertion the notebook authors no exception
handling — there is no try/except or retry statement anywhere — and the one
authored mitigation is the source comment on the `MASTER_PORT` assignment
naming the likely cause of a port conflict. -/
theorem no_exception_handling_spec :
    notebook.filter isHandlerStmt = [] ∧
    notebook.filter isAssertStmt = [Stmt.assertStmt gpuAssertMessage] ∧
    Stmt.envAssign "MASTER_PORT" "9994"
      (some "modify if RuntimeError: Address already in use") ∈ notebook := by
  refine ⟨by decide, by decide, by decide⟩

theorem listPre_append_self {α : Type} [BEq α] [LawfulBEq α] (l m : List α) :
    l.isPrefixOf (l ++ m) = true := by
  induction l with
  | nil => simp [List.isPrefixOf]
  | cons a t ih => simp [List.isPrefixOf, ih]

theorem strHasPre_pathJoin (a b : String) : strHasPre a (pathJoin a b) = true := by
  simp only [strHasPre, pathJoin, String.data_append, List.append_assoc]
  exact listPre_append_self a.data _

/-- C5: both training runs write their intermediate checkpoints under paths
rooted in the local temporary directory, the final artifacts of each run are
copied to the persistent paths `workingDir ++ "/llm04_fine_tuning/" ++ name`
for the two checkpoint names, the terminal cleanup removes only the
temporary root, and (whenever the working directory does not sit inside the
temporary root) the persistent paths are left intact by the cleanup. -/
theorem checkpoint_persistence_spec (root workingDir : String)
    (h1 : strHasPre root (final_model_path workingDir "test-trainer") = false)
    (h2 : strHasPre root (final_model_path workingDir "test-trainer-deepspeed") = false) :
    (fileOps root workingDir).filterMap ckptTarget =
      [local_checkpoint_path root, checkpoint_location root] ∧
    (∀ p ∈ (fileOps root workingDir).filterMap ckptTarget, strHasPre root p = true) ∧
    (fileOps root workingDir).filterMap copyTarget =
      [final_model_path workingDir "test-trainer",
       final_model_path workingDir "test-trainer-deepspeed"] ∧
    (fileOps root workingDir).filterMap removeTarget = [root] ∧
    (∀ p ∈ (fileOps root workingDir).filterMap copyTarget,
      removedUnder (fileOps root workingDir) p = false) := by
  refine ⟨rfl, ?_, rfl, rfl, ?_⟩
  · intro p hp
    have hp2 : p = local_checkpoint_path root ∨ p = checkpoint_location root := by
      simpa [fileOps, ckptTarget, local_checkpoint_path, checkpoint_location] using hp
    rcases hp2 with h | h <;> subst h <;> exact strHasPre_pathJoin root _
  · intro p hp
    have hp2 : p = final_model_path workingDir "test-trainer" ∨
        p = final_model_path workingDir "test-trainer-deepspeed" := by
      simpa [fileOps, copyTarget, final_model_path] using hp
    rcases hp2 with h | h <;> subst h <;>
      simp [removedUnder, fileOps, h1, h2]

/-- Witness for C5: with temporary root `"/tmp/x"` and working directory
`"/dbfs/w"`, the cleanup removes only `"/tmp/x"` and the persistent
final-model path survives. -/
theorem checkpoint_persistence_spec_witness :
    (fileOps "/tmp/x" "/dbfs/w").filterMap removeTarget = ["/tmp/x"] ∧
    removedUnder (fileOps "/tmp/x" "/dbfs/w")
      (final_model_path "/dbfs/w" "test-trainer") = false :=
  ⟨(checkpoint_persistence_spec "/tmp/x" "/dbfs/w" (by decide) (by decide)).2.2.2.1,
   (checkpoint_persistence_spec "/tmp/x" "/dbfs/w" (by decide) (by decide)).2.2.2.2
     (final_model_path "/dbfs/w" "test-trainer") (by decide)⟩

/-- C7: the prediction section reloads the model from the persistent final
path, tokenizes the reviews, calls generate on the tokenized reviews,
decodes the generated ids with special tokens skipped (`true`), and displays
each review paired with its decoded string in a table with columns
`["review", "classification"]` — for every behaviour of the external
loader, tokenizer, generator and decoder. -/
theorem predict_display_spec {M E P : Type} (loadModel : String → M)
    (encode : List String → E) (generate : M → E → P)
    (decode : P → Bool → List String) (workingDir : String) (reviews : List String) :
    predictSection loadModel encode generate decode
        (final_model_path workingDir "test-trainer") reviews =
      { columns := ["review", "classification"],
        rows := reviews.zip (decode (generate
          (loadModel (final_model_path workingDir "test-trainer"))
          (encode reviews)) true) } := rfl

/-- C10: mapping the tokenization closure with
`remove_columns=["text", "label"]` leaves every split of the tokenized
dataset with exactly the fields of the batch encoding of the tokenizer, and
neither the raw `"text"` nor the raw `"label"` column survives. -/
theorem tokenized_columns_spec (newCols : List String)
    (htext : "text" ∉ newCols) (hlabel : "label" ∉ newCols) :
    (∀ p ∈ tokenizedDatasetColumns newCols, p.2 = newCols) ∧
    (∀ p ∈ tokenizedDatasetColumns newCols,
      "text" ∉ p.2 ∧ "label" ∉ p.2) := by
  have hfilter : rawColumns.filter (fun c => !(["text", "label"].contains c)) = [] := by
    decide
  have hcols : mapWithRemove rawColumns newCols ["text", "label"] = newCols := by
    show rawColumns.filter (fun c => !(["text", "label"].contains c)) ++ newCols = newCols
    rw [hfilter, List.nil_append]
  have hds : tokenizedDatasetColumns newCols =
      [("train", newCols), ("test", newCols), ("unsupervised", newCols)] := by
    simp [tokenizedDatasetColumns, imdbSplits, hcols]
  constructor
  · intro p hp
    rw [hds] at hp
    have : p = ("train", newCols) ∨ p = ("test", newCols) ∨ p = ("unsupervised", newCols) := by
      simpa using hp
    rcases this with h | h | h <;> subst h <;> rfl
  · intro p hp
    rw [hds] at hp
    have : p = ("train", newCols) ∨ p = ("test", newCols) ∨ p = ("unsupervised", newCols) := by
      simpa using hp
    rcases this with h | h | h <;> subst h <;> exact ⟨htext, hlabel⟩

/-- Witness for C10: with the T5 batch-encoding fields, the `"train"` split
of the tokenized dataset carries exactly those fields and neither raw
column. -/
theorem tokenized_columns_spec_witness :
    "text" ∉ (("train", ["input_ids", "attention_mask", "labels"]) :
        String × List String).2 ∧
    "label" ∉ (("train", ["input_ids", "attention_mask", "labels"]) :
        String × List String).2 :=
  (tokenized_columns_spec ["input_ids", "attention_mask", "labels"]
      (by decide) (by decide)).2
    ("train", ["input_ids", "attention_mask", "labels"]) (by decide)

end LLM04
